import Mathlib

/-!
# Verification of crux-toolkit core components

Shallow embedding of the crux-toolkit sources (spectral cross-correlation,
target/decoy output fan-out, delimited-file reading, hit collections and
match comparators) together with theorems settling the specification claims.

Floating-point values (`FLOAT_T`, `double`) are modelled as exact rationals
(`ℚ`): the claims under study concern which indices/branches contribute to a
result and the shape of the arithmetic, not rounding behaviour.
-/

/-! ## Cross-correlation transform (src/src/c/cuda/crux_cuda_test.c)

`do_cross_correlation_obs(float* in, float* ans, int n, int max_offset)`:
for every `idx < n`, starts from `ans[idx] = in[idx]` and, for every
`sub_idx` from `idx - max_offset` to `idx + max_offset`, skips it when
`sub_idx <= 0 || sub_idx >= n`, otherwise subtracts
`in[sub_idx] / (MAX_XCORR_OFFSET * 2.0)`.  The input array is modelled as a
`List ℚ` (with `n` its length) and the loop as a fold over the window of
`sub_idx` values.
-/

/-- `#define MAX_XCORR_OFFSET 75` from crux_cuda_test.c. -/
def MAX_XCORR_OFFSET : ℚ := 75

/-- One iteration of the inner loop of `do_cross_correlation_obs`: skip the
index when `sub_idx <= 0 || sub_idx >= n`, otherwise subtract
`in[sub_idx] / (MAX_XCORR_OFFSET * 2.0)` from the accumulator. -/
def ccBody (xs : List ℚ) (n : ℕ) (acc : ℚ) (s : ℤ) : ℚ :=
  if s ≤ 0 ∨ (n : ℤ) ≤ s then acc
  else acc - xs.getD s.toNat 0 / (MAX_XCORR_OFFSET * 2)

/-- The `sub_idx` values visited by the inner loop:
`idx - max_offset, …, idx + max_offset` (inclusive). -/
def ccWindow (idx : ℕ) (maxOffset : ℕ) : List ℤ :=
  (List.range (2 * maxOffset + 1)).map (fun k : ℕ => (idx : ℤ) - (maxOffset : ℤ) + (k : ℤ))

/-- Embedding of `do_cross_correlation_obs` from src/src/c/cuda/crux_cuda_test.c. -/
def do_cross_correlation_obs (xs : List ℚ) (maxOffset : ℕ) : List ℚ :=
  (List.range xs.length).map
    (fun idx => (ccWindow idx maxOffset).foldl (ccBody xs xs.length) (xs.getD idx 0))

/-- The concrete scenario of the spec: a spectrum with peaks of intensity 100
at bins 10, 50 and 90 (all other bins zero), array length 91. -/
def peaks3 : List ℚ :=
  (List.range 91).map (fun i => if i = 10 ∨ i = 50 ∨ i = 90 then 100 else 0)

/-! ### Evaluation lemmas for the cross-correlation embedding -/

theorem getD_map_range {α : Type} (n : ℕ) (f : ℕ → α) (i : ℕ) (d : α) :
    ((List.range n).map f).getD i d = if i < n then f i else d := by
  by_cases h : i < n
  · simp [List.getD_eq_getElem?_getD, List.getElem?_range h, h]
  · rw [List.getD_eq_getElem?_getD, List.getElem?_eq_none (by simpa using Nat.le_of_not_lt h)]
    simp [h]

theorem peaks3_length : peaks3.length = 91 := by simp [peaks3]

theorem peaks3_getD (i : ℕ) :
    peaks3.getD i 0 =
      if i < 91 then (if i = 10 ∨ i = 50 ∨ i = 90 then (100 : ℚ) else 0) else 0 :=
  getD_map_range 91 _ i 0

/-- The entry of the transformed array at an in-range index equals the fold of
the inner loop over the window, started at the original intensity. -/
theorem do_cross_correlation_obs_getD (xs : List ℚ) (m i : ℕ) (h : i < xs.length) :
    (do_cross_correlation_obs xs m).getD i 0 =
      (ccWindow i m).foldl (ccBody xs xs.length) (xs.getD i 0) := by
  unfold do_cross_correlation_obs
  rw [getD_map_range]
  simp [h]

/-- The inner-loop fold subtracts, from its initial value, the sum of the
non-skipped intensities each divided by `MAX_XCORR_OFFSET * 2`. -/
theorem ccBody_foldl (xs : List ℚ) (n : ℕ) (l : List ℤ) (init : ℚ) :
    l.foldl (ccBody xs n) init =
      init - ((l.map
        (fun s => if 0 < s ∧ s < (n : ℤ) then xs.getD s.toNat 0 else 0)).sum) / 150 := by
  induction l generalizing init with
  | nil => simp
  | cons s l ih =>
      rw [List.foldl_cons, ih, List.map_cons, List.sum_cons, ccBody]
      by_cases hs : s ≤ 0 ∨ (n : ℤ) ≤ s
      · rw [if_pos hs, if_neg (by omega)]
        ring
      · rw [if_neg hs, if_pos (by omega)]
        rw [show MAX_XCORR_OFFSET * 2 = 150 by norm_num [MAX_XCORR_OFFSET]]
        ring

theorem list_range_map_sum {M : Type} [AddCommMonoid M] (n : ℕ) (f : ℕ → M) :
    ((List.range n).map f).sum = ∑ k in Finset.range n, f k := by
  induction n with
  | zero => simp
  | succ n ih => rw [List.range_succ, List.map_append, List.sum_append,
      Finset.sum_range_succ, ih, List.map_singleton, List.sum_singleton]

theorem Icc_int_succ_right (a b : ℤ) (h : a ≤ b + 1) :
    Finset.Icc a (b + 1) = insert (b + 1) (Finset.Icc a b) := by
  ext x
  simp only [Finset.mem_Icc, Finset.mem_insert]
  omega

/-- Re-indexing: summing a function at `a, a+1, …, a+c-1` equals the sum over
the integer interval `[a, a+c-1]`. -/
theorem sum_range_shift {M : Type} [AddCommMonoid M] (G : ℤ → M) (a : ℤ) (c : ℕ) :
    ∑ k in Finset.range c, G (a + k) = ∑ s in Finset.Icc a (a + c - 1), G s := by
  induction c with
  | zero =>
      rw [Finset.range_zero, Finset.sum_empty, Finset.Icc_eq_empty (by omega),
        Finset.sum_empty]
  | succ c ih =>
      rw [Finset.sum_range_succ, ih,
        show a + (c + 1 : ℕ) - 1 = (a + c - 1) + 1 by push_cast; ring,
        Icc_int_succ_right _ _ (by omega),
        Finset.sum_insert (by simp only [Finset.mem_Icc]; omega)]
      rw [show (a + c - 1) + 1 = a + (c : ℤ) by ring]
      ring_nf
      rw [add_comm]

/-- The sum of the window terms, re-indexed as a sum over the integer
interval `[i - m, i + m]` with the out-of-range indices contributing zero. -/
theorem ccWindow_sum (m i : ℕ) (G : ℤ → ℚ) :
    ((ccWindow i m).map G).sum = ∑ s in Finset.Icc ((i : ℤ) - m) ((i : ℤ) + m), G s := by
  unfold ccWindow
  rw [List.map_map, list_range_map_sum]
  have := sum_range_shift G ((i : ℤ) - m) (2 * m + 1)
  simp only [Function.comp] at this ⊢
  rw [this, show (i : ℤ) - m + (2 * m + 1 : ℕ) - 1 = (i : ℤ) + m by push_cast; ring]

/-- `do_cross_correlation_obs` at an in-range bin, in closed form: the
original intensity minus the sum of the in-range window intensities
(including the centre bin itself) divided by the fixed constant 150. -/
theorem do_cross_correlation_obs_closed_form (xs : List ℚ) (m i : ℕ) (h : i < xs.length) :
    (do_cross_correlation_obs xs m).getD i 0 =
      xs.getD i 0 -
        (∑ s in Finset.Icc ((i : ℤ) - m) ((i : ℤ) + m),
          if 0 < s ∧ s < (xs.length : ℤ) then xs.getD s.toNat 0 else 0) / 150 := by
  rw [do_cross_correlation_obs_getD xs m i h, ccBody_foldl, ccWindow_sum]

theorem peaks3_getElem (i : ℕ) :
    (peaks3[i]?).getD 0 =
      if i < 91 then (if i = 10 ∨ i = 50 ∨ i = 90 then (100 : ℚ) else 0) else 0 := by
  have h := peaks3_getD i
  rw [List.getD_eq_getElem?_getD] at h
  exact h

theorem peaks3_cc_at_10 : (do_cross_correlation_obs peaks3 2).getD 10 0 = 298 / 3 := by
  rw [do_cross_correlation_obs_closed_form peaks3 2 10 (by rw [peaks3_length]; omega)]
  rw [peaks3_length]
  rw [show ((10 : ℕ) : ℤ) - (2 : ℕ) = 8 by norm_num,
    show ((10 : ℕ) : ℤ) + (2 : ℕ) = 12 by norm_num,
    show Finset.Icc (8 : ℤ) 12 = {8, 9, 10, 11, 12} from rfl]
  norm_num [peaks3_getElem, show Int.toNat 8 = 8 from rfl, show Int.toNat 9 = 9 from rfl,
    show Int.toNat 10 = 10 from rfl, show Int.toNat 11 = 11 from rfl,
    show Int.toNat 12 = 12 from rfl]

/-- **C1** counterexample.  The claim states that the transform subtracts the
average of the window intensities *excluding* bin `i` itself, and that in the
concrete scenario (peaks of 100 at bins 10/50/90, `max_offset = 2`) the value
at bin 10 is 100.  The code includes bin `i` in the window and divides every
term by the fixed constant `MAX_XCORR_OFFSET * 2 = 150`, so the value at bin
10 is `100 - 100/150 = 298/3 ≠ 100`. -/
theorem C1_counterexample :
    (do_cross_correlation_obs peaks3 2).getD 10 0 ≠ 100 ∧
    (do_cross_correlation_obs peaks3 2).getD 10 0 = 298 / 3 := by
  refine ⟨?_, peaks3_cc_at_10⟩
  rw [peaks3_cc_at_10]
  norm_num

/-- **C1** (corrected).  For every intensity array, every in-range bin `i`
and every `max_offset`, the transformed value at `i` equals the original
intensity at `i` minus the sum of all intensities in the symmetric window
`[i-max_offset, i+max_offset]` — *including* bin `i` itself — divided by the
fixed constant `MAX_XCORR_OFFSET * 2 = 150` (not by the window population),
with out-of-range indices (`≤ 0` or `≥ length`) skipped rather than treated
as zero. -/
theorem C1_cross_correlation_corrected (xs : List ℚ) (m i : ℕ) (h : i < xs.length) :
    (do_cross_correlation_obs xs m).getD i 0 =
      xs.getD i 0 -
        (∑ s in Finset.Icc ((i : ℤ) - m) ((i : ℤ) + m),
          if 0 < s ∧ s < (xs.length : ℤ) then xs.getD s.toNat 0 else 0) / 150 :=
  do_cross_correlation_obs_closed_form xs m i h

/-- **C1** witness: the corrected theorem applied to the concrete scenario
(`peaks3`, `max_offset = 2`, bin 10). -/
theorem C1_witness :
    10 < peaks3.length ∧
    (do_cross_correlation_obs peaks3 2).getD 10 0 =
      peaks3.getD 10 0 -
        (∑ s in Finset.Icc ((10 : ℤ) - (2 : ℕ)) ((10 : ℤ) + (2 : ℕ)),
          if 0 < s ∧ s < (peaks3.length : ℤ) then peaks3.getD s.toNat 0 else 0) / 150 :=
  ⟨by rw [peaks3_length]; norm_num,
   C1_cross_correlation_corrected peaks3 2 10 (by rw [peaks3_length]; norm_num)⟩

/-! ## Target/decoy output fan-out (src/src/c/OutputFiles.cpp)

The `OutputFiles` class owns `num_files_` parallel output channels.  File
handles are modelled by the data written to them: a tab-delimited or SQT
channel is the list of match-collection blocks printed to it, an XML channel
additionally records how many footers have been printed.  Match collections
and spectra are opaque to every claim, so both are modelled as `ℕ`
identifiers.  A `carp(CARP_FATAL, …)` call terminates the process: it is
modelled as an error value returned with the state unchanged (nothing after
the call executes). -/

/-- A match collection (`MATCH_COLLECTION_T*`), opaque here. -/
abbrev MatchCollection := ℕ

/-- The relevant distinctions of `COMMAND_T` drawn by OutputFiles.cpp. -/
inductive CommandType
  | SEARCH_COMMAND
  | SEQUEST_COMMAND
  | SPECTRAL_COUNTS_COMMAND
  | OTHER_COMMAND
deriving DecidableEq, Repr

/-- A fatal `carp(CARP_FATAL, …)` condition. -/
inductive FatalError
  | channelMismatch (given expected : ℕ)
deriving DecidableEq, Repr

/-- An open XML output channel: the match-collection blocks printed to it and
the number of footers printed to it. -/
structure XmlFile where
  blocks : List MatchCollection
  footers : ℕ
deriving DecidableEq, Repr

/-- The state of an `OutputFiles` object: the channel count and, for each of
the three per-channel file arrays, `none` when the array was never created
(`NULL`) or the per-channel contents. -/
structure OutputFilesState where
  numFiles : ℕ
  delim : Option (List (List MatchCollection))
  sqt : Option (List (List MatchCollection))
  xml : Option (List XmlFile)
deriving DecidableEq, Repr

/-- Embedding of `OutputFiles::makeTargetDecoyList` (OutputFiles.cpp:117):
entry 0 is `"target"`; entry 1 is `"decoy"` iff `num_files_ == 2`; otherwise
entries `1 … num_files_-1` are `"decoy-1" … "decoy-(num_files_-1)"`. -/
def makeTargetDecoyList (numFiles : ℕ) : List String :=
  "target" ::
    (if numFiles = 2 then ["decoy"]
     else (List.range (numFiles - 1)).map (fun i => "decoy-" ++ toString (i + 1)))

/-- `num_files_` as computed by the constructor (OutputFiles.cpp:40-46):
`num-decoy-files + 1`, overridden to `1` for commands other than search and
sequest. -/
def computeNumFiles (cmd : CommandType) (numDecoyFiles : ℕ) : ℕ :=
  if cmd ≠ CommandType.SEARCH_COMMAND ∧ cmd ≠ CommandType.SEQUEST_COMMAND then 1
  else numDecoyFiles + 1

/-- The freshly constructed `OutputFiles` state (OutputFiles.cpp:22-95): a
tab-delimited file per channel always; XML files unless the command is
spectral-counts; SQT files only for sequest. -/
def mkOutputFiles (cmd : CommandType) (numDecoyFiles : ℕ) : OutputFilesState :=
  let n := computeNumFiles cmd numDecoyFiles
  { numFiles := n
    delim := some (List.replicate n [])
    sqt := if cmd = CommandType.SEQUEST_COMMAND then some (List.replicate n []) else none
    xml := if cmd ≠ CommandType.SPECTRAL_COUNTS_COMMAND
           then some (List.replicate n (XmlFile.mk [] 0)) else none }

/-- The `cur_matches` pointer at the start of loop iteration `file_idx` in the
print helpers: `target_matches` initially, and after writing channel `i` it is
replaced by `decoy_matches_array[i]` when that index exists. -/
def curAt (target : MatchCollection) (decoys : List MatchCollection) : ℕ → MatchCollection
  | 0 => target
  | i + 1 => if h : i < decoys.length then decoys.get ⟨i, h⟩ else curAt target decoys i

/-- Append, to every channel, the collection the loop writes to it. -/
def appendPerChannel (chans : List (List MatchCollection)) (target : MatchCollection)
    (decoys : List MatchCollection) : List (List MatchCollection) :=
  chans.mapIdx (fun i c => c ++ [curAt target decoys i])

/-- Append one collection to channel `i` only. -/
def appendAt (chans : List (List MatchCollection)) (i : ℕ)
    (m : MatchCollection) : List (List MatchCollection) :=
  chans.mapIdx (fun j c => if j = i then c ++ [m] else c)

/-- Embedding of `OutputFiles::printMatchesTab` (OutputFiles.cpp:383): no-op
when the tab-delimited array is `NULL`; with a spectrum, one block per
channel; without a spectrum, `print_matches_multi_spectra` receives channel 0
and (when `num_files_ > 1`) channel 1 (its body lives outside these sources
and is modelled as appending the pooled collection to each file it is
given). -/
def printMatchesTab (s : OutputFilesState) (target : MatchCollection)
    (decoys : List MatchCollection) (spectrum : Option ℕ) : OutputFilesState :=
  match s.delim with
  | none => s
  | some chans =>
    match spectrum with
    | some _ => { s with delim := some (appendPerChannel chans target decoys) }
    | none =>
        let chans1 := appendAt chans 0 target
        let chans2 := if 1 < s.numFiles then appendAt chans1 1 target else chans1
        { s with delim := some chans2 }

/-- Embedding of `OutputFiles::printMatchesSqt` (OutputFiles.cpp:423): no-op
when the SQT array is `NULL`, else one block per channel. -/
def printMatchesSqt (s : OutputFilesState) (target : MatchCollection)
    (decoys : List MatchCollection) : OutputFilesState :=
  match s.sqt with
  | none => s
  | some chans => { s with sqt := some (appendPerChannel chans target decoys) }

/-- Embedding of `OutputFiles::printMatchesXml` (OutputFiles.cpp:451): no-op
when the XML array is `NULL`, else one block per channel. -/
def printMatchesXml (s : OutputFilesState) (target : MatchCollection)
    (decoys : List MatchCollection) : OutputFilesState :=
  match s.xml with
  | none => s
  | some files =>
    let files2 := files.mapIdx (fun i f => { f with blocks := f.blocks ++ [curAt target decoys i] })
    { s with xml := some files2 }

/-- Embedding of `OutputFiles::writeMatches` (OutputFiles.cpp:354-380): return
immediately on a `NULL` target collection; fatal error when the number of
decoy collections differs from `num_files_ - 1`; otherwise print to the tab,
SQT and XML channels. -/
def writeMatches (s : OutputFilesState) (target : Option MatchCollection)
    (decoys : List MatchCollection) (spectrum : Option ℕ) :
    OutputFilesState × Option FatalError :=
  match target with
  | none => (s, none)
  | some t =>
    if decoys.length ≠ s.numFiles - 1 then
      (s, some (FatalError.channelMismatch decoys.length (s.numFiles - 1)))
    else
      (printMatchesXml (printMatchesSqt (printMatchesTab s t decoys spectrum) t decoys)
        t decoys, none)

/-- Embedding of `OutputFiles::writeFooters` (OutputFiles.cpp:340-347): when
the XML array exists, print one footer to every XML channel; there is no
guard recording that footers were already written. -/
def writeFooters (s : OutputFilesState) : OutputFilesState :=
  match s.xml with
  | none => s
  | some files => { s with xml := some (files.map (fun f => { f with footers := f.footers + 1 })) }

/-- **C2** counterexample.  The claim says every call of `writeMatches` with
a decoy-collection count different from `num_decoy_files` raises the fatal
channel-mismatch condition.  But a `NULL` target collection returns before
the check: with `num_decoy_files = 2` and only one decoy collection supplied,
the call succeeds (no fatal error) when the target collection is `NULL`. -/
theorem C2_counterexample :
    (1 : ℕ) ≠ 2 ∧
    (writeMatches (mkOutputFiles CommandType.SEARCH_COMMAND 2) none [7] (some 1)).2
      = none := by
  exact ⟨by decide, rfl⟩

/-- **C2** (corrected).  For a search command (where the channel count is
`num_decoy_files + 1`) and a non-`NULL` target collection, `writeMatches`
succeeds iff the number of decoy collections equals `num_decoy_files`, and on
a mismatch raises the fatal channel-mismatch condition (so `num_decoy_files
= 2` with one decoy collection fails fatally); but with a `NULL` target
collection it returns successfully before the check, whatever the decoy
count. -/
theorem C2_writeMatches_corrected (k : ℕ) (t : MatchCollection)
    (decoys : List MatchCollection) (spectrum : Option ℕ) :
    ((writeMatches (mkOutputFiles CommandType.SEARCH_COMMAND k) (some t) decoys spectrum).2
        = none ↔ decoys.length = k) ∧
    (decoys.length ≠ k →
      (writeMatches (mkOutputFiles CommandType.SEARCH_COMMAND k) (some t) decoys spectrum).2
        = some (FatalError.channelMismatch decoys.length k)) ∧
    (writeMatches (mkOutputFiles CommandType.SEARCH_COMMAND k) none decoys spectrum).2
      = none := by
  have hn : (mkOutputFiles CommandType.SEARCH_COMMAND k).numFiles = k + 1 := by
    simp [mkOutputFiles, computeNumFiles]
  refine ⟨?_, ?_, rfl⟩ <;> by_cases h : decoys.length = k
  · simp [writeMatches, hn, h]
  · simp [writeMatches, hn, h]
  · exact fun hk => absurd h hk
  · intro _
    simp [writeMatches, hn, h]

/-- **C2** witness: `num_decoy_files = 2`, one decoy collection, non-`NULL`
target — the fatal channel-mismatch condition is raised. -/
theorem C2_witness :
    (writeMatches (mkOutputFiles CommandType.SEARCH_COMMAND 2) (some 3) [5] (some 1)).2
      = some (FatalError.channelMismatch 1 2) :=
  (C2_writeMatches_corrected 2 3 [5] (some 1)).2.1 (by decide)

/-- **C3** counterexample.  The claim says a second call of `writeFooters` is
a no-op.  The code has no footers-written guard: a second call prints a
second footer to every XML channel, so applying `writeFooters` twice to a
freshly constructed search state differs from applying it once. -/
theorem C3_counterexample :
    writeFooters (writeFooters (mkOutputFiles CommandType.SEARCH_COMMAND 1))
      ≠ writeFooters (mkOutputFiles CommandType.SEARCH_COMMAND 1) := by
  decide

/-- **C3** (corrected).  Every call of `writeFooters` prints exactly one
footer to every XML channel (even a channel that received zero match
blocks) and touches nothing else; it is not idempotent — two calls leave two
footers per channel, so the footer is written exactly once per run only
because the caller invokes `writeFooters` once.  When the XML array is
`NULL` the call is a no-op. -/
theorem C3_writeFooters_corrected (s : OutputFilesState) (files : List XmlFile)
    (h : s.xml = some files) :
    ((writeFooters s).xml
        = some (files.map (fun f => { f with footers := f.footers + 1 }))) ∧
    ((writeFooters (writeFooters s)).xml
        = some (files.map (fun f => { f with footers := f.footers + 2 }))) ∧
    (writeFooters s).delim = s.delim ∧ (writeFooters s).sqt = s.sqt ∧
    (∀ s2 : OutputFilesState, s2.xml = none → writeFooters s2 = s2) := by
  have h1 : (writeFooters s).xml
      = some (files.map (fun f => { f with footers := f.footers + 1 })) := by
    simp [writeFooters, h]
  refine ⟨h1, ?_, ?_, ?_, ?_⟩
  · show (writeFooters (writeFooters s)).xml = _
    rcases hw : writeFooters s with ⟨n2, d2, q2, x2⟩
    have hx2 : x2 = some (files.map (fun f => { f with footers := f.footers + 1 })) := by
      rw [← h1, hw]
    subst hx2
    simp [writeFooters, List.map_map]
  · simp [writeFooters, h]
  · simp [writeFooters, h]
  · intro s2 h2
    simp [writeFooters, h2]

/-- **C3** witness: the corrected theorem at a freshly constructed search
state with one decoy channel (two XML channels, zero match blocks, zero
footers). -/
theorem C3_witness :
    (mkOutputFiles CommandType.SEARCH_COMMAND 1).xml
        = some (List.replicate 2 (XmlFile.mk [] 0)) ∧
    ((writeFooters (mkOutputFiles CommandType.SEARCH_COMMAND 1)).xml
        = some ((List.replicate 2 (XmlFile.mk [] 0)).map
            (fun f => { f with footers := f.footers + 1 }))) ∧
    ((writeFooters (writeFooters (mkOutputFiles CommandType.SEARCH_COMMAND 1))).xml
        = some ((List.replicate 2 (XmlFile.mk [] 0)).map
            (fun f => { f with footers := f.footers + 2 }))) ∧
    (writeFooters (mkOutputFiles CommandType.SEARCH_COMMAND 1)).delim
        = (mkOutputFiles CommandType.SEARCH_COMMAND 1).delim ∧
    (writeFooters (mkOutputFiles CommandType.SEARCH_COMMAND 1)).sqt
        = (mkOutputFiles CommandType.SEARCH_COMMAND 1).sqt ∧
    (∀ s2 : OutputFilesState, s2.xml = none → writeFooters s2 = s2) := by
  have h := C3_writeFooters_corrected (mkOutputFiles CommandType.SEARCH_COMMAND 1)
    (List.replicate 2 (XmlFile.mk [] 0)) (by decide)
  exact ⟨by decide, h.1, h.2.1, h.2.2.1, h.2.2.2.1, h.2.2.2.2⟩

/-- **C7** (confirmed).  For every `num_decoy_files = k ≥ 1`, the label list
built for `num_files_ = k + 1` channels has length `1 + k` with `"target"`
first; for `k = 1` it is exactly `["target", "decoy"]`, and for `k ≥ 2` the
entry at position `i` (for `1 ≤ i ≤ k`) is `"decoy-i"`. -/
theorem C7_target_decoy_labels (k : ℕ) (h : 1 ≤ k) :
    (makeTargetDecoyList (k + 1)).length = 1 + k ∧
    (makeTargetDecoyList (k + 1)).getD 0 "" = "target" ∧
    (k = 1 → makeTargetDecoyList (k + 1) = ["target", "decoy"]) ∧
    (2 ≤ k → ∀ i, 1 ≤ i → i ≤ k →
      (makeTargetDecoyList (k + 1)).getD i "" = "decoy-" ++ toString i) := by
  refine ⟨?_, ?_, ?_, ?_⟩
  · by_cases hk : k = 1
    · subst hk; rfl
    · have : k + 1 ≠ 2 := by omega
      simp [makeTargetDecoyList, this]
      omega
  · rfl
  · intro hk; subst hk; rfl
  · intro hk i h1 h2
    have hne : k + 1 ≠ 2 := by omega
    obtain ⟨j, rfl⟩ : ∃ j, i = j + 1 := ⟨i - 1, by omega⟩
    simp only [makeTargetDecoyList, if_neg hne, List.getD_cons_succ]
    rw [show k + 1 - 1 = k from rfl, getD_map_range]
    rw [if_pos (by omega)]

/-- **C7** witness: `num_decoy_files = 3` gives labels
`["target", "decoy-1", "decoy-2", "decoy-3"]`. -/
theorem C7_witness :
    1 ≤ 3 ∧
    ((makeTargetDecoyList (3 + 1)).length = 1 + 3 ∧
    (makeTargetDecoyList (3 + 1)).getD 0 "" = "target" ∧
    (3 = 1 → makeTargetDecoyList (3 + 1) = ["target", "decoy"]) ∧
    (2 ≤ 3 → ∀ i, 1 ≤ i → i ≤ 3 →
      (makeTargetDecoyList (3 + 1)).getD i "" = "decoy-" ++ toString i)) :=
  ⟨by norm_num, C7_target_decoy_labels 3 (by norm_num)⟩

/-- **C10** (confirmed).  Calling `writeMatches` with a `NULL` target
collection returns immediately: for every state, every decoy-collection
array (of any size, matching or not) and any spectrum, no output channel is
touched and no fatal error is raised — the channel-count check is never
reached. -/
theorem C10_writeMatches_null_target (s : OutputFilesState)
    (decoys : List MatchCollection) (spectrum : Option ℕ) :
    (writeMatches s none decoys spectrum).1.delim = s.delim ∧
    (writeMatches s none decoys spectrum).1.sqt = s.sqt ∧
    (writeMatches s none decoys spectrum).1.xml = s.xml ∧
    (writeMatches s none decoys spectrum).1.numFiles = s.numFiles ∧
    (writeMatches s none decoys spectrum).2 = none :=
  ⟨rfl, rfl, rfl, rfl, rfl⟩

/-! ## Tab-delimited file reader (src/src/c/DelimitedFileReader.cpp)

The reader is modelled on rows already split into cells (`List String`):
`DelimitedFile::tokenize` lives outside these sources, and no claim depends
on the tokenisation itself, only on the cell counts and cell strings.
`carp` log emissions are returned alongside the new state; `next()` emits
three `CARP_WARNING` messages on the first under-column row
(DelimitedFileReader.cpp:492-500) and contains no `CARP_FATAL` call. -/

/-- A `carp` log level: the reader's `next()` only ever emits warnings. -/
inductive CarpLevel
  | warning
  | fatal
deriving DecidableEq, Repr

/-- The three `CARP_WARNING` messages emitted for the first under-column
row. -/
def columnMismatchWarnings : List CarpLevel :=
  [CarpLevel.warning, CarpLevel.warning, CarpLevel.warning]

/-- The reader state: header column names, the pre-read next row
(`next_data_string_`, `none` when `has_next_` is false), the remaining rows
of the file, the current parsed row `data_`, `current_row_`, `has_current_`
and the per-file `column_mismatch_warned_` flag. -/
structure DelimitedFileReader where
  columnNames : List String
  nextData : Option (List String)
  rest : List (List String)
  data : List String
  currentRow : ℕ
  hasCurrent : Bool
  columnMismatchWarned : Bool
deriving DecidableEq, Repr

/-- The `while (data_.size() < column_names_.size()) data_.push_back("")`
padding loop of `next()` (DelimitedFileReader.cpp:502-504). -/
def padLoop (cols : ℕ) (data : List String) : List String :=
  if data.length < cols then padLoop cols (data ++ [""]) else data
termination_by cols - data.length
decreasing_by simp only [List.length_append, List.length_cons, List.length_nil]; omega

/-- Embedding of `DelimitedFileReader::next` (DelimitedFileReader.cpp:482):
when a pre-read row exists, advance `current_row_`, parse the row, warn (once
per file) and pad when it has fewer cells than the header, then pre-read the
following row; otherwise clear `has_current_`. -/
def DelimitedFileReader.next (r : DelimitedFileReader) :
    DelimitedFileReader × List CarpLevel :=
  match r.nextData with
  | none => ({ r with hasCurrent := false }, [])
  | some row =>
    let mismatch := row.length < r.columnNames.length
    let emitted := if mismatch ∧ r.columnMismatchWarned = false
                   then columnMismatchWarnings else []
    let warned := if mismatch then true else r.columnMismatchWarned
    let newData := if mismatch then padLoop r.columnNames.length row else row
    ({ r with
        currentRow := r.currentRow + 1
        data := newData
        nextData := r.rest.head?
        rest := r.rest.tail
        hasCurrent := true
        columnMismatchWarned := warned }, emitted)

/-- The emissions of `k` successive `next()` calls. -/
def nextTrace (r : DelimitedFileReader) : ℕ → List (List CarpLevel)
  | 0 => []
  | k + 1 => (r.next).2 :: nextTrace (r.next).1 k

/-- The reader state built by `loadData` (DelimitedFileReader.cpp:140-174)
right after the header is parsed into `column_names_` and the first data row
is pre-read: `current_row_ = 0` and `column_mismatch_warned_ = false` for
every freshly loaded file.  (`loadData` then calls `next()` once when a data
row exists.) -/
def initReader (cols : List String) (rows : List (List String)) : DelimitedFileReader :=
  { columnNames := cols
    nextData := rows.head?
    rest := rows.tail
    data := []
    currentRow := 0
    hasCurrent := false
    columnMismatchWarned := false }

theorem padLoop_eq_aux (fuel cols : ℕ) :
    ∀ data : List String, cols - data.length = fuel →
      padLoop cols data = data ++ List.replicate (cols - data.length) "" := by
  induction fuel with
  | zero =>
      intro data hf
      rw [padLoop, if_neg (by omega), hf]
      simp
  | succ fuel ih =>
      intro data hf
      have hlt : data.length < cols := by omega
      have hlen : (data ++ [""]).length = data.length + 1 := by simp
      have hih := ih (data ++ [""]) (by rw [hlen]; omega)
      rw [padLoop, if_pos hlt, hih, hlen, List.append_assoc]
      congr 1
      have h2 : cols - data.length = (cols - (data.length + 1)) + 1 := by omega
      rw [h2, List.replicate_succ]
      rfl

/-- The padding loop appends exactly the missing number of empty cells. -/
theorem padLoop_eq (cols : ℕ) (data : List String) :
    padLoop cols data = data ++ List.replicate (cols - data.length) "" :=
  padLoop_eq_aux (cols - data.length) cols data rfl

/-- Once the per-file warning flag is set, `next()` emits nothing and keeps
the flag set. -/
theorem next_warned_silent (r : DelimitedFileReader)
    (h : r.columnMismatchWarned = true) :
    (r.next).1.columnMismatchWarned = true ∧ (r.next).2 = [] := by
  unfold DelimitedFileReader.next
  cases hn : r.nextData <;> simp [h]

/-- Once the per-file warning flag is set, any number of further `next()`
calls emits nothing at all. -/
theorem nextTrace_warned_silent (k : ℕ) :
    ∀ r : DelimitedFileReader, r.columnMismatchWarned = true →
      nextTrace r k = List.replicate k [] := by
  induction k with
  | zero => intro r _; rfl
  | succ k ih =>
      intro r h
      obtain ⟨h1, h2⟩ := next_warned_silent r h
      simp [nextTrace, h2, ih _ h1, List.replicate_succ]

/-- **C4** (confirmed).  When `next()` consumes a row with fewer cells than
the header has columns, the missing trailing cells are padded with empty
strings (so the parsed row has exactly the header's column count); the
warning block is emitted only when the per-file flag is still clear; the
flag is set afterwards, so no warning is ever emitted again for the rest of
the file (shown for any number `k` of further `next()` calls); no emission
is ever `CARP_FATAL`; and a freshly loaded file starts with the flag
clear. -/
theorem C4_under_column_row_padded_single_warning (r : DelimitedFileReader)
    (row : List String) (k : ℕ) (h1 : r.nextData = some row)
    (h2 : row.length < r.columnNames.length) :
    ((r.next).1.data = row ++ List.replicate (r.columnNames.length - row.length) "") ∧
    ((r.next).1.data.length = r.columnNames.length) ∧
    ((r.next).2 = if r.columnMismatchWarned then [] else columnMismatchWarnings) ∧
    (CarpLevel.fatal ∉ (r.next).2) ∧
    ((r.next).1.columnMismatchWarned = true) ∧
    (nextTrace (r.next).1 k = List.replicate k []) ∧
    (∀ cols rows, (initReader cols rows).columnMismatchWarned = false) := by
  have hdata : (r.next).1.data
      = row ++ List.replicate (r.columnNames.length - row.length) "" := by
    unfold DelimitedFileReader.next
    rw [h1]
    simp only [if_pos h2]
    exact padLoop_eq r.columnNames.length row
  have hwarned : (r.next).1.columnMismatchWarned = true := by
    unfold DelimitedFileReader.next
    rw [h1]
    simp [h2]
  have hemit : (r.next).2 = if r.columnMismatchWarned then [] else columnMismatchWarnings := by
    unfold DelimitedFileReader.next
    rw [h1]
    cases hw : r.columnMismatchWarned <;> simp [h2, hw]
  refine ⟨hdata, ?_, hemit, ?_, hwarned, nextTrace_warned_silent k _ hwarned,
    fun cols rows => rfl⟩
  · rw [hdata]
    simp only [List.length_append, List.length_replicate]
    omega
  · rw [hemit]
    cases hw : r.columnMismatchWarned <;> simp [columnMismatchWarnings]

/-- **C4** witness: a reader on a 3-column file whose current pre-read row
has a single cell, with two further rows behind it. -/
theorem C4_witness :
    (DelimitedFileReader.mk ["scan", "sequence", "score"] (some ["7"])
        [["8", "PEPTIDE"], ["9"]] [] 0 false false).nextData = some ["7"] ∧
    (["7"] : List String).length
      < (["scan", "sequence", "score"] : List String).length ∧
    (((DelimitedFileReader.mk ["scan", "sequence", "score"] (some ["7"])
        [["8", "PEPTIDE"], ["9"]] [] 0 false false).next).1.data
      = ["7"] ++ List.replicate ((["scan", "sequence", "score"] : List String).length
          - (["7"] : List String).length) "" ∧
    ((DelimitedFileReader.mk ["scan", "sequence", "score"] (some ["7"])
        [["8", "PEPTIDE"], ["9"]] [] 0 false false).next).1.data.length
      = (["scan", "sequence", "score"] : List String).length ∧
    ((DelimitedFileReader.mk ["scan", "sequence", "score"] (some ["7"])
        [["8", "PEPTIDE"], ["9"]] [] 0 false false).next).2
      = (if (DelimitedFileReader.mk ["scan", "sequence", "score"] (some ["7"])
            [["8", "PEPTIDE"], ["9"]] [] 0 false false).columnMismatchWarned
         then [] else columnMismatchWarnings) ∧
    CarpLevel.fatal ∉ ((DelimitedFileReader.mk ["scan", "sequence", "score"] (some ["7"])
        [["8", "PEPTIDE"], ["9"]] [] 0 false false).next).2 ∧
    ((DelimitedFileReader.mk ["scan", "sequence", "score"] (some ["7"])
        [["8", "PEPTIDE"], ["9"]] [] 0 false false).next).1.columnMismatchWarned = true ∧
    nextTrace ((DelimitedFileReader.mk ["scan", "sequence", "score"] (some ["7"])
        [["8", "PEPTIDE"], ["9"]] [] 0 false false).next).1 2 = List.replicate 2 [] ∧
    (∀ cols rows, (initReader cols rows).columnMismatchWarned = false)) :=
  ⟨rfl, by decide,
   C4_under_column_row_padded_single_warning
     (DelimitedFileReader.mk ["scan", "sequence", "score"] (some ["7"])
       [["8", "PEPTIDE"], ["9"]] [] 0 false false) ["7"] 2 rfl (by decide)⟩

/-! ## Numeric cell access (src/src/c/DelimitedFileReader.cpp:283-336)

`FLOAT_T`/`double` cell values are modelled as an exact rational extended
with signed infinities. -/

/-- A floating value: finite (exact rational) or one of the two
infinities. -/
inductive FloatVal
  | finite (q : ℚ)
  | posInf
  | negInf
deriving DecidableEq, Repr

/-- Modelled from the spec: `DelimitedFile::from_string` (declared in
DelimitedFile.h, which is not among these sources) converts a cell string to
a numeric value; per the spec, "empty numeric cells read back as `0.0`
rather than erroring".  Non-empty cells parse as decimal numbers (only the
empty-cell case is relied on by any claim; fractional syntax is not
modelled). -/
def from_string (s : String) : ℚ :=
  if s = "" then 0 else ((s.toInt?.getD 0 : ℤ) : ℚ)

/-- Embedding of `DelimitedFileReader::getFloat` on the cell string
(DelimitedFileReader.cpp:283-298): the literal `Inf` and `-Inf` tokens map
to the infinities, everything else is converted by `from_string`. -/
def getFloatCell (s : String) : FloatVal :=
  if s = "Inf" then FloatVal.posInf
  else if s = "-Inf" then FloatVal.negInf
  else FloatVal.finite (from_string s)

/-- Embedding of `DelimitedFileReader::getDouble` on the cell string
(DelimitedFileReader.cpp:317-336): the empty cell maps to `0.0`, the literal
`Inf` and `-Inf` tokens map to the infinities, everything else is converted
by `from_string`. -/
def getDoubleCell (s : String) : FloatVal :=
  if s = "" then FloatVal.finite 0
  else if s = "Inf" then FloatVal.posInf
  else if s = "-Inf" then FloatVal.negInf
  else FloatVal.finite (from_string s)

/-- `getFloat(col_idx)` reads the current row's cell `col_idx`. -/
def DelimitedFileReader.getFloat (r : DelimitedFileReader) (colIdx : ℕ) : FloatVal :=
  getFloatCell (r.data.getD colIdx "")

/-- `getDouble(col_idx)` reads the current row's cell `col_idx`. -/
def DelimitedFileReader.getDouble (r : DelimitedFileReader) (colIdx : ℕ) : FloatVal :=
  getDoubleCell (r.data.getD colIdx "")

/-- **C5** (confirmed).  For every numeric cell read through `getFloat` and
through `getDouble`: the literal token `Inf` yields positive infinity,
`-Inf` yields negative infinity, and an empty cell reads back as `0.0`
(finite zero, not an error: neither function has a fatal path). -/
theorem C5_infinity_tokens_and_empty_cells (r : DelimitedFileReader) (i : ℕ) :
    (r.data.getD i "" = "Inf" →
      r.getFloat i = FloatVal.posInf ∧ r.getDouble i = FloatVal.posInf) ∧
    (r.data.getD i "" = "-Inf" →
      r.getFloat i = FloatVal.negInf ∧ r.getDouble i = FloatVal.negInf) ∧
    (r.data.getD i "" = "" →
      r.getFloat i = FloatVal.finite 0 ∧ r.getDouble i = FloatVal.finite 0) := by
  refine ⟨fun h => ?_, fun h => ?_, fun h => ?_⟩ <;>
    unfold DelimitedFileReader.getFloat DelimitedFileReader.getDouble <;>
    rw [h] <;> simp [getFloatCell, getDoubleCell, from_string]

/-- **C5** witness: a current row `["Inf", "-Inf", ""]` read back through
both accessors at each of the three columns. -/
theorem C5_witness :
    ((DelimitedFileReader.mk ["a", "b", "c"] none [] ["Inf", "-Inf", ""] 1 true
        false).getFloat 0 = FloatVal.posInf ∧
     (DelimitedFileReader.mk ["a", "b", "c"] none [] ["Inf", "-Inf", ""] 1 true
        false).getDouble 0 = FloatVal.posInf) ∧
    ((DelimitedFileReader.mk ["a", "b", "c"] none [] ["Inf", "-Inf", ""] 1 true
        false).getFloat 1 = FloatVal.negInf ∧
     (DelimitedFileReader.mk ["a", "b", "c"] none [] ["Inf", "-Inf", ""] 1 true
        false).getDouble 1 = FloatVal.negInf) ∧
    ((DelimitedFileReader.mk ["a", "b", "c"] none [] ["Inf", "-Inf", ""] 1 true
        false).getFloat 2 = FloatVal.finite 0 ∧
     (DelimitedFileReader.mk ["a", "b", "c"] none [] ["Inf", "-Inf", ""] 1 true
        false).getDouble 2 = FloatVal.finite 0) :=
  ⟨(C5_infinity_tokens_and_empty_cells _ 0).1 rfl,
   (C5_infinity_tokens_and_empty_cells _ 1).2.1 rfl,
   (C5_infinity_tokens_and_empty_cells _ 2).2.2 rfl⟩

/-! ## print-processed-spectra startup (src/src/app/PrintProcessedSpectra.cpp) -/

/-- A filesystem effect of the startup of `PrintProcessedSpectra::main`, in
program order. -/
inductive MainEffect
  | createOutputDirectory (dir : String)
  | createFileInPath (name : String) (dir : String)
deriving DecidableEq, Repr

/-- The startup fatal condition of `PrintProcessedSpectra::main`. -/
inductive StartupFatal
  | invalidStopAfter (value : String)
deriving DecidableEq, Repr

/-- The six values the `stop-after` check accepts
(PrintProcessedSpectra.cpp:44-46). -/
def validStopAfterValues : List String :=
  ["discretize", "remove-precursor", "square-root", "remove-grass", "ten-bin", "xcorr"]

/-- Embedding of the startup of `PrintProcessedSpectra::main`
(PrintProcessedSpectra.cpp:33-54): the `stop-after` value is validated
first; an invalid value is a `carp(CARP_FATAL, …)` raised before any
filesystem effect; a valid value proceeds to `create_output_directory` and
`create_file_in_path` (the remainder of `main` is beyond the claims and cut
off here). -/
def printProcessedSpectraStartup (stopAfter outputDir outputFile : String) :
    List MainEffect × Option StartupFatal :=
  if stopAfter ≠ "discretize" ∧ stopAfter ≠ "remove-precursor" ∧
     stopAfter ≠ "square-root" ∧ stopAfter ≠ "remove-grass" ∧
     stopAfter ≠ "ten-bin" ∧ stopAfter ≠ "xcorr" then
    ([], some (StartupFatal.invalidStopAfter stopAfter))
  else
    ([MainEffect.createOutputDirectory outputDir,
      MainEffect.createFileInPath outputFile outputDir], none)

/-- **C6** (confirmed).  The command proceeds iff the `stop-after` value is
one of exactly `discretize`, `remove-precursor`, `square-root`,
`remove-grass`, `ten-bin`, `xcorr`; any other value raises the fatal
configuration error with an empty effect trace — before any output
directory or output file is created. -/
theorem C6_stop_after_fatal_before_output (stopAfter outputDir outputFile : String) :
    ((printProcessedSpectraStartup stopAfter outputDir outputFile).2 = none
      ↔ stopAfter ∈ validStopAfterValues) ∧
    ((printProcessedSpectraStartup stopAfter outputDir outputFile).2 ≠ none →
      (printProcessedSpectraStartup stopAfter outputDir outputFile).1 = []) ∧
    (stopAfter ∉ validStopAfterValues →
      (printProcessedSpectraStartup stopAfter outputDir outputFile).2
        = some (StartupFatal.invalidStopAfter stopAfter)) := by
  have hmem : stopAfter ∈ validStopAfterValues ↔
      ¬(stopAfter ≠ "discretize" ∧ stopAfter ≠ "remove-precursor" ∧
        stopAfter ≠ "square-root" ∧ stopAfter ≠ "remove-grass" ∧
        stopAfter ≠ "ten-bin" ∧ stopAfter ≠ "xcorr") := by
    simp only [validStopAfterValues, List.mem_cons, List.not_mem_nil, or_false]
    tauto
  by_cases h : stopAfter ≠ "discretize" ∧ stopAfter ≠ "remove-precursor" ∧
      stopAfter ≠ "square-root" ∧ stopAfter ≠ "remove-grass" ∧
      stopAfter ≠ "ten-bin" ∧ stopAfter ≠ "xcorr"
  · refine ⟨?_, ?_, ?_⟩
    · simp [printProcessedSpectraStartup, h, hmem]
    · intro _
      simp [printProcessedSpectraStartup, h]
    · intro _
      simp [printProcessedSpectraStartup, h]
  · refine ⟨?_, ?_, ?_⟩
    · simp [printProcessedSpectraStartup, h, hmem]
    · intro hne
      exact absurd (by simp [printProcessedSpectraStartup, h]) hne
    · intro hmem2
      exact absurd (hmem.mpr h) hmem2

/-- **C6** witness: the unknown stage name `"flatten"` fails fatally with no
filesystem effect, and `"xcorr"` proceeds. -/
theorem C6_witness :
    ((printProcessedSpectraStartup "flatten" "out-dir" "spec.ms2").1 = []) ∧
    ((printProcessedSpectraStartup "flatten" "out-dir" "spec.ms2").2
      = some (StartupFatal.invalidStopAfter "flatten")) ∧
    ((printProcessedSpectraStartup "xcorr" "out-dir" "spec.ms2").2 = none) :=
  ⟨(C6_stop_after_fatal_before_output "flatten" "out-dir" "spec.ms2").2.1 (by decide),
   (C6_stop_after_fatal_before_output "flatten" "out-dir" "spec.ms2").2.2 (by decide),
   (C6_stop_after_fatal_before_output "xcorr" "out-dir" "spec.ms2").1.mpr (by decide)⟩

/-! ## Match comparators (src/src/c/match.h)

The comparator bodies live in match.c, outside these sources; the header's
doc comments state their contracts, which are embedded here.  Only the
attributes the contracts consult are modelled. -/

/-- The attributes of `MATCH_T` relevant to the comparators: the XCorr
score, the peptide sequence and the spectrum scan number. -/
structure MATCH_T where
  xcorr : ℚ
  sequence : String
  firstScan : ℕ
deriving DecidableEq, Repr

/-- Embedding of `compare_match_xcorr` by its documented contract
(match.h:76-83): "returns the difference between xcorr score in match_a and
match_b"; `qsort` consumes only the sign.  The peptide sequence is not an
input of the comparison. -/
def compare_match_xcorr (a b : MATCH_T) : ℚ := a.xcorr - b.xcorr

/-- Embedding of `compare_match_spectrum_xcorr` by its documented contract
(match.h:152-161): "-1 if match a spectrum number is less than that of match
b or if scan number is same, if score of match a is less than match b.  1 if
scan number and score are equal, else 0."  The peptide sequence is not an
input of the comparison. -/
def compare_match_spectrum_xcorr (a b : MATCH_T) : ℤ :=
  if a.firstScan < b.firstScan ∨ (a.firstScan = b.firstScan ∧ a.xcorr < b.xcorr) then -1
  else if a.firstScan = b.firstScan ∧ a.xcorr = b.xcorr then 1
  else 0

/-- **C8** counterexample.  The claim requires every ranking comparator to
break score ties by peptide sequence, returning nonzero for equal-score,
different-sequence matches.  `compare_match_xcorr` returns the score
difference, which is 0 for two matches with equal XCorr scores and
different sequences. -/
theorem C8_counterexample :
    compare_match_xcorr (MATCH_T.mk 3 "AAACK" 1) (MATCH_T.mk 3 "CCAAK" 1) = 0 ∧
    (MATCH_T.mk 3 "AAACK" 1).sequence ≠ (MATCH_T.mk 3 "CCAAK" 1).sequence := by
  constructor
  · norm_num [compare_match_xcorr]
  · decide

/-- **C8** (corrected).  The ranking comparators never consult the peptide
sequence: both are invariant under replacing the sequences of their
arguments.  `compare_match_xcorr` is keyed on the XCorr score alone and
returns 0 whenever the scores are equal, whatever the sequences;
`compare_match_spectrum_xcorr` is keyed on scan number then score, and on an
equal scan and equal score returns 1 in *both* argument orders — so neither
comparator is a total order with a sequence tie-break, and the relative
output order of equal-scoring matches is not determined by the
comparators. -/
theorem C8_comparators_ignore_sequence (a b : MATCH_T) (s t : String) :
    (compare_match_xcorr { a with sequence := s } { b with sequence := t }
      = compare_match_xcorr a b) ∧
    (a.xcorr = b.xcorr → compare_match_xcorr a b = 0) ∧
    (compare_match_spectrum_xcorr { a with sequence := s } { b with sequence := t }
      = compare_match_spectrum_xcorr a b) ∧
    (a.xcorr = b.xcorr ∧ a.firstScan = b.firstScan →
      compare_match_spectrum_xcorr a b = 1 ∧ compare_match_spectrum_xcorr b a = 1) := by
  refine ⟨rfl, fun h => ?_, rfl, fun hh => ?_⟩
  · simp [compare_match_xcorr, h]
  · obtain ⟨h1, h2⟩ := hh
    constructor <;> simp [compare_match_spectrum_xcorr, h1, h2]

/-- **C8** witness: the corrected theorem at two equal-score, same-scan
matches with different sequences. -/
theorem C8_witness :
    (compare_match_xcorr { MATCH_T.mk 3 "AAACK" 1 with sequence := "LLK" }
        { MATCH_T.mk 3 "CCAAK" 1 with sequence := "MMK" }
      = compare_match_xcorr (MATCH_T.mk 3 "AAACK" 1) (MATCH_T.mk 3 "CCAAK" 1)) ∧
    (compare_match_xcorr (MATCH_T.mk 3 "AAACK" 1) (MATCH_T.mk 3 "CCAAK" 1) = 0) ∧
    (compare_match_spectrum_xcorr (MATCH_T.mk 3 "AAACK" 1) (MATCH_T.mk 3 "CCAAK" 1) = 1 ∧
     compare_match_spectrum_xcorr (MATCH_T.mk 3 "CCAAK" 1) (MATCH_T.mk 3 "AAACK" 1) = 1) := by
  have h := C8_comparators_ignore_sequence (MATCH_T.mk 3 "AAACK" 1)
    (MATCH_T.mk 3 "CCAAK" 1) "LLK" "MMK"
  exact ⟨h.1, h.2.1 rfl, h.2.2.2 ⟨rfl, rfl⟩⟩

/-! ## Hit collection (src/src/c/hit_collection.c) -/

/-- A hit (`HIT_T*`), opaque here. -/
abbrev HIT_T := ℕ

/-- `struct hit_collection` (hit_collection.c:14-17): the fixed-size array
`HIT_T* hits[_MAX_NUMBER_HITS]` modelled by its contents per index, plus
`int hit_total`.  `_MAX_NUMBER_HITS` (from hit_collection.h, outside these
sources) does not occur in the structure model because no operation of
hit_collection.c consults it. -/
structure HitCollection where
  hits : ℕ → Option HIT_T
  hit_total : ℕ

/-- Embedding of `hit_collection_add_hit` (hit_collection.c:145-151):
`hit_collection->hits[hit_collection->hit_total++] = hit; return TRUE;`. -/
def hit_collection_add_hit (c : HitCollection) (h : HIT_T) : HitCollection × Bool :=
  ({ hits := fun i => if i = c.hit_total then some h else c.hits i
     hit_total := c.hit_total + 1 }, true)

/-- The array index `hit_collection_add_hit` writes to. -/
def addHitWriteIndex (c : HitCollection) : ℕ := c.hit_total

/-- **C9** (confirmed).  `hit_collection_add_hit` stores the given hit at
index `hit_total`, increments `hit_total` by one, returns `TRUE`
unconditionally (for *every* collection, also one with
`hit_total ≥ _MAX_NUMBER_HITS` — there is no bounds check and the result
does not depend on `_MAX_NUMBER_HITS` at all), leaves every other index
unchanged, and the written index is in bounds precisely under the
precondition `hit_total < _MAX_NUMBER_HITS`. -/
theorem C9_add_hit_unchecked (c : HitCollection) (h : HIT_T) (maxHits : ℕ) :
    ((hit_collection_add_hit c h).1.hits c.hit_total = some h) ∧
    ((hit_collection_add_hit c h).1.hit_total = c.hit_total + 1) ∧
    ((hit_collection_add_hit c h).2 = true) ∧
    (∀ i, i ≠ c.hit_total → (hit_collection_add_hit c h).1.hits i = c.hits i) ∧
    (addHitWriteIndex c < maxHits ↔ c.hit_total < maxHits) := by
  refine ⟨by simp [hit_collection_add_hit], rfl, rfl, fun i hi => ?_, Iff.rfl⟩
  simp [hit_collection_add_hit, hi]

/-- **C9** witness: adding hit `7` to an empty collection with
`_MAX_NUMBER_HITS = 10`. -/
theorem C9_witness :
    ((hit_collection_add_hit (HitCollection.mk (fun _ => none) 0) 7).1.hits 0 = some 7) ∧
    ((hit_collection_add_hit (HitCollection.mk (fun _ => none) 0) 7).1.hit_total = 0 + 1) ∧
    ((hit_collection_add_hit (HitCollection.mk (fun _ => none) 0) 7).2 = true) ∧
    ((hit_collection_add_hit (HitCollection.mk (fun _ => none) 0) 7).1.hits 5
      = (HitCollection.mk (fun _ => none) 0).hits 5) ∧
    (addHitWriteIndex (HitCollection.mk (fun _ => none) 0) < 10 ↔ (0 : ℕ) < 10) := by
  have h := C9_add_hit_unchecked (HitCollection.mk (fun _ => none) 0) 7 10
  exact ⟨h.1, h.2.1, h.2.2.1, h.2.2.2.1 5 (by decide), h.2.2.2.2⟩
